import Mathlib

/-!
Shallow embedding of the Go package `github.com/Syncbak-Git/log` (src/log.go).
The package is a level-filtered logger: a `Log` owns an output sink, a level
bitmask and a timestamp function; level-tagged write operations are gated by
the mask and, when enabled, write one `<timestamp>\t<LEVEL>\t<message>\n`
entry to the sink.  `Fatal` additionally calls `os.Exit(1)` and `Panic` calls
`panic` with the formatted message.  Package-level functions delegate to a
shared instance `std` created by `init()` via `NewLog()`.
-/

namespace GoLog

/-- Values passed as variadic `...interface{}` arguments to the printf-style
formatting primitives.  Strings and integers suffice for the properties
considered here. -/
inductive GoValue where
  | str : String → GoValue
  | int : Int → GoValue
deriving DecidableEq

/-- Rendering of one formatting verb applied to one argument, modelling the
`fmt` package's behaviour for the verbs `%s`, `%d` and `%v` (with `fmt`'s
`%!verb(type=value)` fallback for a mismatched verb). -/
def formatVerb : Char → GoValue → List Char
  | 's', .str s => s.data
  | 'd', .int n => (toString n).data
  | 'v', .str s => s.data
  | 'v', .int n => (toString n).data
  | 'd', .str s => ("%!d(string=" ++ s ++ ")").data
  | 's', .int n => ("%!s(int=" ++ toString n ++ ")").data
  | c, .str s => ("%!" ++ String.singleton c ++ "(string=" ++ s ++ ")").data
  | c, .int n => ("%!" ++ String.singleton c ++ "(int=" ++ toString n ++ ")").data

/-- Rendering of one unconsumed extra argument, as in `fmt`'s
`%!(EXTRA type=value)` notice. -/
def renderExtra : GoValue → List Char
  | .str s => ("string=" ++ s).data
  | .int n => ("int=" ++ toString n).data

/-- Rendering of the list of unconsumed extra arguments. -/
def renderExtras : List GoValue → List Char
  | [] => []
  | [a] => renderExtra a
  | a :: rest => renderExtra a ++ (", ").data ++ renderExtras rest

/-- Character-level worker for `sprintf`, modelling `fmt.Sprintf`:
literal characters are copied, `%%` emits `%`, a verb consumes the next
argument, a missing argument yields `%!verb(MISSING)`, leftover arguments
append an `%!(EXTRA ...)` notice, and a trailing `%` yields `%!(NOVERB)`. -/
def sprintfAux : List Char → List GoValue → List Char
  | [], [] => []
  | [], a :: rest => ("%!(EXTRA ").data ++ renderExtras (a :: rest) ++ [')']
  | '%' :: '%' :: cs, args => '%' :: sprintfAux cs args
  | '%' :: c :: cs, [] => '%' :: '!' :: c :: ("(MISSING)").data ++ sprintfAux cs []
  | '%' :: c :: cs, a :: args => formatVerb c a ++ sprintfAux cs args
  | ['%'], _ => ("%!(NOVERB)").data
  | c :: cs, args => c :: sprintfAux cs args

/-- Model of `fmt.Sprintf(format, args...)`. -/
def sprintf (format : String) (args : List GoValue) : String :=
  ⟨sprintfAux format.data args⟩

/-- `type Level uint64` — a level is a bit in an unsigned 64-bit mask. -/
abbrev Level := Nat

/-- `LevelDebug Level = 1 << iota` with iota = 0. -/
def LevelDebug : Level := 1
/-- Bit 1. -/
def LevelInfo : Level := 2
/-- Bit 2. -/
def LevelWarning : Level := 4
/-- Bit 3. -/
def LevelError : Level := 8
/-- Bit 4. -/
def LevelFatal : Level := 16
/-- Bit 5. -/
def LevelPanic : Level := 32
/-- Bit 6. -/
def LevelCustom : Level := 64
/-- `LevelAll = 0xFFFF`. -/
def LevelAll : Level := 0xFFFF
/-- `LevelNone = 0`. -/
def LevelNone : Level := 0

/-- Model of an `io.Writer` sink.  `written` is the trace of bytes handed to
the sink's `Write` method; `writeErr` is the error this sink returns from
`Write` (none for a healthy sink); `closable` says whether the dynamic type
also implements `io.Closer` (`io.WriteCloser`); `closed` records that `Close`
was invoked on it, and `closeErr` is the error its `Close` returns. -/
structure Writer where
  written : String
  closable : Bool
  closed : Bool
  writeErr : Option String
  closeErr : Option String
deriving DecidableEq

/-- One call of the sink's `Write` with payload `s`: the payload joins the
trace and the sink's write error (if any) is returned. -/
def Writer.write (w : Writer) (s : String) : Writer × Option String :=
  ({ w with written := w.written ++ s }, w.writeErr)

/-- One call of the sink's `Close`. -/
def Writer.close (w : Writer) : Writer × Option String :=
  ({ w with closed := true }, w.closeErr)

/-- `type Log struct { output io.Writer; logLevel Level; timestamp func() string }` -/
structure Log where
  output : Writer
  logLevel : Level
  timestamp : Unit → String

/-- `os.Stderr` at process start: an empty-trace file handle; `*os.File`
implements `io.WriteCloser`, so it is closable. -/
def osStderr : Writer :=
  { written := "", closable := true, closed := false, writeErr := none, closeErr := none }

/-- `NewLog()` — all levels enabled, output `os.Stderr`.  `timeNow` models the
external clock rendering `time.Now().UTC().Format(time.RFC3339Nano)`. -/
def NewLog (timeNow : Unit → String) : Log :=
  { output := osStderr, logLevel := LevelAll, timestamp := timeNow }

/-- The shared instance `std` as assigned by `init()`: `std = NewLog()`. -/
def stdInit (timeNow : Unit → String) : Log :=
  NewLog timeNow

/-- `func (l *Log) SetLogLevel(ll Level) { l.logLevel = ll }` -/
def Log.SetLogLevel (l : Log) (ll : Level) : Log :=
  { l with logLevel := ll }

/-- `func (l *Log) SetOutput(w io.Writer) { l.output = w }` -/
def Log.SetOutput (l : Log) (w : Writer) : Log :=
  { l with output := w }

/-- `func (l *Log) Close() error`: if the output is an `io.WriteCloser`,
return `output.Close()`; otherwise do nothing and return nil. -/
def Log.Close (l : Log) : Log × Option String :=
  if l.output.closable then
    let p := l.output.close
    ({ l with output := p.1 }, p.2)
  else (l, none)

/-- Result of the external call
`os.OpenFile(f, os.O_CREATE|os.O_WRONLY|os.O_APPEND, 0644)`: either a freshly
opened file handle or an open error.  The path argument is abstracted into
this outcome of the OS call. -/
inductive OpenResult where
  | ok : Writer → OpenResult
  | err : String → OpenResult
deriving DecidableEq

/-- `func (l *Log) SetOutputFile(f string) error`: on open failure return the
error (leaving the log untouched); on success `l.SetOutput(w)` and return
nil. -/
def Log.SetOutputFile (l : Log) (openFile : OpenResult) : Log × Option String :=
  match openFile with
  | .err e => (l, some e)
  | .ok w => (l.SetOutput w, none)

/-- `func (l *Log) SetTimestamp(f func() string) { l.timestamp = f }` -/
def Log.SetTimestamp (l : Log) (f : Unit → String) : Log :=
  { l with timestamp := f }

/-- How a level-tagged write operation finishes: a normal return carrying the
Go `error` value, process termination via `os.Exit(code)`, or a Go `panic`
carrying its payload. -/
inductive Outcome where
  | ret : Option String → Outcome
  | exit : Nat → Outcome
  | panicked : String → Outcome
deriving DecidableEq

/-- `func (l *Log) writeEntry(level, format string, args ...interface{}) error`:
`fmt.Fprintf(l.output, "%s\t%s\t%s\n", l.timestamp(), level, fmt.Sprintf(format, args...))`,
returning the write error. -/
def Log.writeEntry (l : Log) (level format : String) (args : List GoValue) :
    Log × Option String :=
  let p := l.output.write
    (sprintf "%s\t%s\t%s\n" [.str (l.timestamp ()), .str level, .str (sprintf format args)])
  ({ l with output := p.1 }, p.2)

/-- `func (l *Log) Debug(format string, args ...interface{}) error` -/
def Log.Debug (l : Log) (format : String) (args : List GoValue) : Log × Outcome :=
  if l.logLevel &&& LevelDebug = 0 then (l, .ret none)
  else
    let p := l.writeEntry "DEBUG" format args
    (p.1, .ret p.2)

/-- `func (l *Log) Info(format string, args ...interface{}) error` -/
def Log.Info (l : Log) (format : String) (args : List GoValue) : Log × Outcome :=
  if l.logLevel &&& LevelInfo = 0 then (l, .ret none)
  else
    let p := l.writeEntry "INFO" format args
    (p.1, .ret p.2)

/-- `func (l *Log) Warning(format string, args ...interface{}) error` -/
def Log.Warning (l : Log) (format : String) (args : List GoValue) : Log × Outcome :=
  if l.logLevel &&& LevelWarning = 0 then (l, .ret none)
  else
    let p := l.writeEntry "WARNING" format args
    (p.1, .ret p.2)

/-- `func (l *Log) Error(format string, args ...interface{}) error` -/
def Log.Error (l : Log) (format : String) (args : List GoValue) : Log × Outcome :=
  if l.logLevel &&& LevelError = 0 then (l, .ret none)
  else
    let p := l.writeEntry "ERROR" format args
    (p.1, .ret p.2)

/-- `func (l *Log) Fatal(format string, args ...interface{}) error`: after the
write attempt the function calls `os.Exit(1)`; the trailing `return err` is
unreachable, so the outcome is `exit 1` regardless of the write error. -/
def Log.Fatal (l : Log) (format : String) (args : List GoValue) : Log × Outcome :=
  if l.logLevel &&& LevelFatal = 0 then (l, .ret none)
  else
    let p := l.writeEntry "FATAL" format args
    (p.1, .exit 1)

/-- `func (l *Log) Panic(format string, args ...interface{}) error`: after the
write attempt the function calls `panic(fmt.Sprintf(format, args...))`; the
trailing `return err` is unreachable. -/
def Log.Panic (l : Log) (format : String) (args : List GoValue) : Log × Outcome :=
  if l.logLevel &&& LevelPanic = 0 then (l, .ret none)
  else
    let p := l.writeEntry "PANIC" format args
    (p.1, .panicked (sprintf format args))

/-- `func (l *Log) Custom(level, format string, args ...interface{}) error` -/
def Log.Custom (l : Log) (level format : String) (args : List GoValue) : Log × Outcome :=
  if l.logLevel &&& LevelCustom = 0 then (l, .ret none)
  else
    let p := l.writeEntry level format args
    (p.1, .ret p.2)

/-- Package-level `func SetLogLevel(l Level) { std.SetLogLevel(l) }`; the
shared instance `std` is passed as explicit state. -/
def SetLogLevel (std : Log) (l : Level) : Log :=
  std.SetLogLevel l

/-- Package-level `func SetOutput(w io.Writer) { std.SetOutput(w) }`. -/
def SetOutput (std : Log) (w : Writer) : Log :=
  std.SetOutput w

/-- Package-level `func Close() error { return std.Close() }`. -/
def Close (std : Log) : Log × Option String :=
  std.Close

/-- Package-level `func SetOutputFile(f string) error { return std.SetOutputFile(f) }`. -/
def SetOutputFile (std : Log) (openFile : OpenResult) : Log × Option String :=
  std.SetOutputFile openFile

/-- Package-level `func SetTimestamp(f func() string) { std.SetTimestamp(f) }`. -/
def SetTimestamp (std : Log) (f : Unit → String) : Log :=
  std.SetTimestamp f

/-- Package-level `func Debug(format string, args ...interface{}) error`. -/
def Debug (std : Log) (format : String) (args : List GoValue) : Log × Outcome :=
  std.Debug format args

/-- Package-level `func Info(format string, args ...interface{}) error`. -/
def Info (std : Log) (format : String) (args : List GoValue) : Log × Outcome :=
  std.Info format args

/-- Package-level `func Warning(format string, args ...interface{}) error`. -/
def Warning (std : Log) (format : String) (args : List GoValue) : Log × Outcome :=
  std.Warning format args

/-- Package-level `func Error(format string, args ...interface{}) error`. -/
def Error (std : Log) (format : String) (args : List GoValue) : Log × Outcome :=
  std.Error format args

/-- Package-level `func Fatal(format string, args ...interface{}) error`. -/
def Fatal (std : Log) (format : String) (args : List GoValue) : Log × Outcome :=
  std.Fatal format args

/-- Package-level `func Panic(format string, args ...interface{}) error`. -/
def Panic (std : Log) (format : String) (args : List GoValue) : Log × Outcome :=
  std.Panic format args

/-- Package-level `func Custom(level, format string, args ...interface{}) error`. -/
def Custom (std : Log) (level format : String) (args : List GoValue) : Log × Outcome :=
  std.Custom level format args

/-- The line `writeEntry` emits: timestamp, tag and message separated by
tabs, with a trailing newline. -/
def entryLine (ts tag msg : String) : String :=
  ts ++ "\t" ++ tag ++ "\t" ++ msg ++ "\n"

end GoLog

namespace GoLog

/-- The entry emitted by `writeEntry` is the tab-and-newline framing of its
three fields: `fmt.Fprintf` with format `"%s\t%s\t%s\n"` concatenates the
timestamp, the tag and the message, tab-separated, newline-terminated. -/
lemma sprintf_line_eq (a b c : String) :
    sprintf "%s\t%s\t%s\n" [.str a, .str b, .str c] = entryLine a b c := by
  apply String.ext
  show sprintfAux ['%', 's', '\t', '%', 's', '\t', '%', 's', '\n'] _ = _
  simp [sprintfAux, formatVerb, entryLine, String.data_append]

/-- C1: for every level-tagged write operation whose level bit is enabled in
the filter mask, and every format string and argument list, the operation
hands the sink exactly one entry `<timestamp>\t<LEVEL>\t<message>\n`, where
the timestamp is the string produced by the configured timestamp function,
the level tag is the operation's fixed uppercase tag (or, for `Custom`, the
caller-supplied tag verbatim), the message is the printf-style formatting of
the arguments into the format string, and the fields are tab-separated. -/
theorem enabled_write_emits_single_tabbed_line (l : Log) (fmt tag : String)
    (args : List GoValue) :
    (l.logLevel &&& LevelDebug ≠ 0 →
      (l.Debug fmt args).1.output.written =
        l.output.written ++ entryLine (l.timestamp ()) "DEBUG" (sprintf fmt args)) ∧
    (l.logLevel &&& LevelInfo ≠ 0 →
      (l.Info fmt args).1.output.written =
        l.output.written ++ entryLine (l.timestamp ()) "INFO" (sprintf fmt args)) ∧
    (l.logLevel &&& LevelWarning ≠ 0 →
      (l.Warning fmt args).1.output.written =
        l.output.written ++ entryLine (l.timestamp ()) "WARNING" (sprintf fmt args)) ∧
    (l.logLevel &&& LevelError ≠ 0 →
      (l.Error fmt args).1.output.written =
        l.output.written ++ entryLine (l.timestamp ()) "ERROR" (sprintf fmt args)) ∧
    (l.logLevel &&& LevelFatal ≠ 0 →
      (l.Fatal fmt args).1.output.written =
        l.output.written ++ entryLine (l.timestamp ()) "FATAL" (sprintf fmt args)) ∧
    (l.logLevel &&& LevelPanic ≠ 0 →
      (l.Panic fmt args).1.output.written =
        l.output.written ++ entryLine (l.timestamp ()) "PANIC" (sprintf fmt args)) ∧
    (l.logLevel &&& LevelCustom ≠ 0 →
      (l.Custom tag fmt args).1.output.written =
        l.output.written ++ entryLine (l.timestamp ()) tag (sprintf fmt args)) := by
  refine ⟨fun h => ?_, fun h => ?_, fun h => ?_, fun h => ?_, fun h => ?_, fun h => ?_,
    fun h => ?_⟩ <;>
    simp [Log.Debug, Log.Info, Log.Warning, Log.Error, Log.Fatal, Log.Panic, Log.Custom,
      h, Log.writeEntry, Writer.write, sprintf_line_eq]

/-- C2: a level-tagged write operation whose level bit is disabled in the
filter mask leaves the logger (and thus the sink trace) unchanged and returns
a nil error; no exit and no panic occurs.  The result `(l, .ret none)` is the
same for every timestamp function, format string and argument list, so no
timestamp generation and no formatting can influence anything. -/
theorem disabled_write_is_noop (l : Log) (fmt tag : String) (args : List GoValue) :
    (l.logLevel &&& LevelDebug = 0 → l.Debug fmt args = (l, .ret none)) ∧
    (l.logLevel &&& LevelInfo = 0 → l.Info fmt args = (l, .ret none)) ∧
    (l.logLevel &&& LevelWarning = 0 → l.Warning fmt args = (l, .ret none)) ∧
    (l.logLevel &&& LevelError = 0 → l.Error fmt args = (l, .ret none)) ∧
    (l.logLevel &&& LevelFatal = 0 → l.Fatal fmt args = (l, .ret none)) ∧
    (l.logLevel &&& LevelPanic = 0 → l.Panic fmt args = (l, .ret none)) ∧
    (l.logLevel &&& LevelCustom = 0 → l.Custom tag fmt args = (l, .ret none)) := by
  refine ⟨fun h => ?_, fun h => ?_, fun h => ?_, fun h => ?_, fun h => ?_, fun h => ?_,
    fun h => ?_⟩ <;>
    simp [Log.Debug, Log.Info, Log.Warning, Log.Error, Log.Fatal, Log.Panic, Log.Custom, h]

/-- C3: once the Fatal bit is enabled, `Fatal` writes its entry and then the
process terminates via `os.Exit(1)` — a non-zero exit — regardless of the
sink's write error (the logger `l` here carries an arbitrary sink, failing or
not); the outcome is `exit 1` and never a normal return, so the trailing
`return err` is unreachable. -/
theorem fatal_enabled_exits_unconditionally (l : Log) (fmt : String) (args : List GoValue)
    (h : l.logLevel &&& LevelFatal ≠ 0) :
    (l.Fatal fmt args).2 = Outcome.exit 1 ∧
    (l.Fatal fmt args).1.output.written =
      l.output.written ++ entryLine (l.timestamp ()) "FATAL" (sprintf fmt args) := by
  constructor <;> simp [Log.Fatal, h, Log.writeEntry, Writer.write, sprintf_line_eq]

/-- C4: when the Panic bit is enabled, `Panic` first hands its entry to the
sink and then panics with exactly the formatted message (no timestamp, no
tag) as payload; the outcome is the panic, never a normal return, and the
resulting state (what a recovering ancestor observes) has the entry already
in the sink trace. -/
theorem panic_enabled_writes_then_panics (l : Log) (fmt : String) (args : List GoValue)
    (h : l.logLevel &&& LevelPanic ≠ 0) :
    (l.Panic fmt args).2 = Outcome.panicked (sprintf fmt args) ∧
    (l.Panic fmt args).1.output.written =
      l.output.written ++ entryLine (l.timestamp ()) "PANIC" (sprintf fmt args) := by
  constructor <;> simp [Log.Panic, h, Log.writeEntry, Writer.write, sprintf_line_eq]

/-- Fixed deterministic timestamp function, as installed by the tests via
`SetTimestamp`. -/
def tsFixed : Unit → String := fun _ => "2006-01-02T15:04:05.999999999Z"

/-- C5 counterexample: the default mask `LevelAll = 0xFFFF` does not enable
every unused bit of the `uint64` level type: bit 16 is outside the seven
defined levels (so an operator could pick it for an extra custom level), is a
legitimate nonzero `Level` value, and yet is disabled in a fresh logger's
mask. -/
theorem default_mask_misses_unused_bit_sixteen :
    (NewLog tsFixed).logLevel &&& (1 <<< 16) = 0 ∧
    (1 <<< 16) &&& (LevelDebug ||| LevelInfo ||| LevelWarning ||| LevelError |||
      LevelFatal ||| LevelPanic ||| LevelCustom) = 0 ∧
    (1 : Level) <<< 16 ≠ 0 := by
  refine ⟨?_, by decide, by decide⟩
  show LevelAll &&& (1 <<< 16) = 0
  decide

/-- C5 amended: a newly constructed logger, and the shared default instance
at process start, has filter mask `LevelAll = 0xFFFF`: every one of the
sixteen low bits — the seven defined levels and the reserved bits 7–15 — is
enabled, while bits 16–63 of the `uint64` level type are not. -/
theorem default_mask_is_low_sixteen_bits (timeNow : Unit → String) :
    (NewLog timeNow).logLevel = LevelAll ∧
    (stdInit timeNow).logLevel = LevelAll ∧
    (∀ k : Nat, k < 16 → LevelAll &&& (1 <<< k) ≠ 0) ∧
    (∀ k : Nat, k < 64 → 16 ≤ k → LevelAll &&& (1 <<< k) = 0) :=
  ⟨rfl, rfl, by decide, by decide⟩

/-- C5 amended, witness: at the fixed clock, `NewLog` has mask `LevelAll`;
bit 0 is enabled and bit 20 is not. -/
theorem default_mask_is_low_sixteen_bits_witness :
    (NewLog tsFixed).logLevel = LevelAll ∧
    LevelAll &&& (1 <<< 0) ≠ 0 ∧ LevelAll &&& (1 <<< 20) = 0 :=
  ⟨(default_mask_is_low_sixteen_bits tsFixed).1,
   (default_mask_is_low_sixteen_bits tsFixed).2.2.1 0 (by decide),
   (default_mask_is_low_sixteen_bits tsFixed).2.2.2 20 (by decide) (by decide)⟩

/-- C6: when the `os.OpenFile` call behind `SetOutputFile` fails, the open
error is returned and the logger — in particular its sink — is exactly as
before, so subsequent writes go to the prior sink; on success the opened file
is installed as the new sink and nil is returned. -/
theorem setOutputFile_failure_keeps_sink (l : Log) (e : String) (w : Writer) :
    l.SetOutputFile (OpenResult.err e) = (l, some e) ∧
    l.SetOutputFile (OpenResult.ok w) = ({ l with output := w }, none) :=
  ⟨rfl, rfl⟩

/-- C7: `Close` invokes the sink's close operation iff the sink is an
`io.WriteCloser`: on a non-closable sink it returns nil and the logger is
untouched (so subsequent writes behave exactly as before); on a closable sink
the close operation runs (the sink is marked closed) and its result is
returned. -/
theorem close_iff_closable (l : Log) :
    (l.output.closable = false → l.Close = (l, none)) ∧
    (l.output.closable = true →
      l.Close = ({ l with output := { l.output with closed := true } }, l.output.closeErr)) := by
  constructor <;> intro h <;> simp [Log.Close, Writer.close, h]

/-- C8: every package-level operation applied to the shared instance state is
definitionally the corresponding `Log` method with the same arguments — the
delegation layer adds no behaviour: same return value, same output, same
state change. -/
theorem global_ops_delegate :
    (∀ (s : Log) (f : String) (a : List GoValue), Debug s f a = Log.Debug s f a) ∧
    (∀ (s : Log) (f : String) (a : List GoValue), Info s f a = Log.Info s f a) ∧
    (∀ (s : Log) (f : String) (a : List GoValue), Warning s f a = Log.Warning s f a) ∧
    (∀ (s : Log) (f : String) (a : List GoValue), Error s f a = Log.Error s f a) ∧
    (∀ (s : Log) (f : String) (a : List GoValue), Fatal s f a = Log.Fatal s f a) ∧
    (∀ (s : Log) (f : String) (a : List GoValue), Panic s f a = Log.Panic s f a) ∧
    (∀ (s : Log) (t f : String) (a : List GoValue), Custom s t f a = Log.Custom s t f a) ∧
    (∀ (s : Log) (m : Level), SetLogLevel s m = Log.SetLogLevel s m) ∧
    (∀ (s : Log) (w : Writer), SetOutput s w = Log.SetOutput s w) ∧
    (∀ (s : Log) (r : OpenResult), SetOutputFile s r = Log.SetOutputFile s r) ∧
    (∀ (s : Log) (f : Unit → String), SetTimestamp s f = Log.SetTimestamp s f) ∧
    (∀ (s : Log), Close s = Log.Close s) := by
  refine ⟨?_, ?_, ?_, ?_, ?_, ?_, ?_, ?_, ?_, ?_, ?_, ?_⟩ <;> intros <;> rfl

/-- Observational agreement of two write-operation results: same sink state
and same outcome (the logger's own mask field is configuration, not
observable behaviour). -/
def sameBehavior (x y : Log × Outcome) : Prop :=
  x.1.output = y.1.output ∧ x.2 = y.2

/-- C9: two filter masks that agree on the seven defined level bits give
observationally identical behaviour for every write operation — same bytes
handed to the sink, same returned error, same exit or panic outcome; mask
bits outside the seven defined level bits never influence any operation. -/
theorem mask_bits_outside_defined_levels_irrelevant (l : Log) (m₁ m₂ : Level)
    (hD : m₁ &&& LevelDebug = m₂ &&& LevelDebug)
    (hI : m₁ &&& LevelInfo = m₂ &&& LevelInfo)
    (hW : m₁ &&& LevelWarning = m₂ &&& LevelWarning)
    (hE : m₁ &&& LevelError = m₂ &&& LevelError)
    (hF : m₁ &&& LevelFatal = m₂ &&& LevelFatal)
    (hP : m₁ &&& LevelPanic = m₂ &&& LevelPanic)
    (hC : m₁ &&& LevelCustom = m₂ &&& LevelCustom)
    (fmt tag : String) (args : List GoValue) :
    sameBehavior (Log.Debug { l with logLevel := m₁ } fmt args)
      (Log.Debug { l with logLevel := m₂ } fmt args) ∧
    sameBehavior (Log.Info { l with logLevel := m₁ } fmt args)
      (Log.Info { l with logLevel := m₂ } fmt args) ∧
    sameBehavior (Log.Warning { l with logLevel := m₁ } fmt args)
      (Log.Warning { l with logLevel := m₂ } fmt args) ∧
    sameBehavior (Log.Error { l with logLevel := m₁ } fmt args)
      (Log.Error { l with logLevel := m₂ } fmt args) ∧
    sameBehavior (Log.Fatal { l with logLevel := m₁ } fmt args)
      (Log.Fatal { l with logLevel := m₂ } fmt args) ∧
    sameBehavior (Log.Panic { l with logLevel := m₁ } fmt args)
      (Log.Panic { l with logLevel := m₂ } fmt args) ∧
    sameBehavior (Log.Custom { l with logLevel := m₁ } tag fmt args)
      (Log.Custom { l with logLevel := m₂ } tag fmt args) := by
  refine ⟨?_, ?_, ?_, ?_, ?_, ?_, ?_⟩
  · by_cases h : m₂ &&& LevelDebug = 0 <;>
      simp [sameBehavior, Log.Debug, Log.writeEntry, hD, h]
  · by_cases h : m₂ &&& LevelInfo = 0 <;>
      simp [sameBehavior, Log.Info, Log.writeEntry, hI, h]
  · by_cases h : m₂ &&& LevelWarning = 0 <;>
      simp [sameBehavior, Log.Warning, Log.writeEntry, hW, h]
  · by_cases h : m₂ &&& LevelError = 0 <;>
      simp [sameBehavior, Log.Error, Log.writeEntry, hE, h]
  · by_cases h : m₂ &&& LevelFatal = 0 <;>
      simp [sameBehavior, Log.Fatal, Log.writeEntry, hF, h]
  · by_cases h : m₂ &&& LevelPanic = 0 <;>
      simp [sameBehavior, Log.Panic, Log.writeEntry, hP, h]
  · by_cases h : m₂ &&& LevelCustom = 0 <;>
      simp [sameBehavior, Log.Custom, Log.writeEntry, hC, h]

/-- C10: each configuration setter replaces exactly its own field and leaves
the other two fields of the logger unchanged; in particular `SetOutput`
installs the supplied sink verbatim (its contents untouched) and no setter
performs a close or a write. -/
theorem setters_touch_single_field (l : Log) (m : Level) (w : Writer) (f : Unit → String) :
    ((l.SetLogLevel m).logLevel = m ∧ (l.SetLogLevel m).output = l.output ∧
      (l.SetLogLevel m).timestamp = l.timestamp) ∧
    ((l.SetOutput w).output = w ∧ (l.SetOutput w).logLevel = l.logLevel ∧
      (l.SetOutput w).timestamp = l.timestamp) ∧
    ((l.SetTimestamp f).timestamp = f ∧ (l.SetTimestamp f).output = l.output ∧
      (l.SetTimestamp f).logLevel = l.logLevel) :=
  ⟨⟨rfl, rfl, rfl⟩, ⟨rfl, rfl, rfl⟩, ⟨rfl, rfl, rfl⟩⟩

/-- An in-memory buffer sink (`bytes.Buffer`): accepts writes, is not an
`io.WriteCloser`. -/
def bufWriter : Writer :=
  { written := "", closable := false, closed := false, writeErr := none, closeErr := none }

/-- A logger over a buffer sink with every level enabled and a fixed
timestamp. -/
def exLog : Log :=
  { output := bufWriter, logLevel := LevelAll, timestamp := tsFixed }

/-- A logger with no level enabled. -/
def exLogNone : Log :=
  { output := bufWriter, logLevel := LevelNone, timestamp := tsFixed }

/-- A logger whose sink rejects every write (e.g. a closed pipe). -/
def failLog : Log :=
  { output := { written := "", closable := true, closed := false,
                writeErr := some "io: read/write on closed pipe", closeErr := none },
    logLevel := LevelAll, timestamp := tsFixed }

/-- A logger over a closable sink (a pipe or file handle). -/
def pipeLog : Log :=
  { output := osStderr, logLevel := LevelAll, timestamp := tsFixed }

/-- C1 witness: with the fixed timestamp and all levels enabled, one `Info`
write puts exactly the expected tab-separated line in the sink. -/
theorem enabled_write_emits_single_tabbed_line_witness :
    (Log.Info exLog "Hello %s" [.str "world"]).1.output.written =
      "2006-01-02T15:04:05.999999999Z\tINFO\tHello world\n" := by
  have h := (enabled_write_emits_single_tabbed_line exLog "Hello %s" "TEST"
    [.str "world"]).2.1 (by decide)
  rw [h]; decide

/-- C2 witness: with the mask `LevelNone`, a `Debug` write returns nil and
changes nothing. -/
theorem disabled_write_is_noop_witness :
    Log.Debug exLogNone "Hello %s" [.str "world"] = (exLogNone, .ret none) :=
  (disabled_write_is_noop exLogNone "Hello %s" "TAG" [.str "world"]).1 (by decide)

/-- C3 witness: even on a sink whose writes fail, an enabled `Fatal` ends in
`os.Exit(1)`. -/
theorem fatal_enabled_exits_unconditionally_witness :
    (Log.Fatal failLog "boom" []).2 = Outcome.exit 1 :=
  (fatal_enabled_exits_unconditionally failLog "boom" [] (by decide)).1

/-- C4 witness: formatting `"%s %d"` with `"Hello world", 1234` yields panic
payload `"Hello world 1234"` and the matching line already in the sink. -/
theorem panic_enabled_writes_then_panics_witness :
    (Log.Panic exLog "%s %d" [.str "Hello world", .int 1234]).2 =
      Outcome.panicked "Hello world 1234" ∧
    (Log.Panic exLog "%s %d" [.str "Hello world", .int 1234]).1.output.written =
      "2006-01-02T15:04:05.999999999Z\tPANIC\tHello world 1234\n" := by
  have h := panic_enabled_writes_then_panics exLog "%s %d"
    [.str "Hello world", .int 1234] (by decide)
  refine ⟨?_, ?_⟩
  · rw [h.1]; decide
  · rw [h.2]; decide

/-- C7 witness: `Close` on a buffer-backed logger is a no-op returning nil;
on a closable sink it marks the sink closed and returns the close result. -/
theorem close_iff_closable_witness :
    exLog.Close = (exLog, none) ∧
    (pipeLog.Close).1.output.closed = true ∧ (pipeLog.Close).2 = none := by
  refine ⟨(close_iff_closable exLog).1 rfl, ?_, ?_⟩
  · rw [(close_iff_closable pipeLog).2 rfl]
  · rw [(close_iff_closable pipeLog).2 rfl]; rfl

/-- C9 witness: masks `0xFFFF` and `0xFFFF ||| 2 ^ 20` agree on the seven
defined bits and give the same `Debug` behaviour. -/
theorem mask_bits_outside_defined_levels_irrelevant_witness :
    sameBehavior (Log.Debug { exLog with logLevel := LevelAll } "x" [])
      (Log.Debug { exLog with logLevel := LevelAll ||| 1 <<< 20 } "x" []) :=
  (mask_bits_outside_defined_levels_irrelevant exLog LevelAll (LevelAll ||| 1 <<< 20)
    (by decide) (by decide) (by decide) (by decide) (by decide) (by decide) (by decide)
    "x" "TAG" []).1

end GoLog
